import Mathlib

/-!
Verification of the bl4ckDAT repository against its specification.

The repository ships two source files:
* `client/src/components/Dashboard.tsx` — the dashboard component, whose
  socket-event handlers form a reducer over a keyed contact collection
  (a JavaScript `Map` from jid to contact info);
* `src/scripts/init-signal.ts` — the Docker bootstrap script for the
  signal-api container.

We embed both shallowly.  The JavaScript `Map` is modelled as an
insertion-ordered association list with unique keys (JS `Map` preserves
insertion order; `set` on an existing key updates in place, on a fresh key
appends; `delete` removes the entry).  JS `undefined`/absent fields are
modelled with `Option`; a falsy-string check (`if (!jid)`) collapses
`undefined`/`null`/`""` — we represent the event's possibly-falsy `jid`
as an `Option String` where `none` stands for any falsy value, which is
observationally faithful because the handler never distinguishes them.
`Date.now()` is impure and is passed in as an explicit `now` parameter.
React state setters become explicit state passing on `DashState`; the
`setTimeout` that clears the error banner after 3s is asynchronous and
outside the synchronous reducer step modelled here.
-/

/-- Platform enum from the client (`'whatsapp' | 'signal'`). -/
inductive Platform where
  | whatsapp
  | signal
deriving DecidableEq

/-- Probe method enum (`'delete' | 'reaction'`). -/
inductive ProbeMethod where
  | delete
  | reaction
deriving DecidableEq

/-- `TrackerData` chart point from Dashboard.tsx.  The TS interface declares
`threshold: number`, but at runtime the handler stores `data.threshold`
verbatim, which is `undefined` when the event omits it — so we model the
stored field as `Option Int`. -/
structure TrackerData where
  rtt : Int
  avg : Int
  median : Int
  threshold : Option Int
  state : String
  timestamp : Nat
deriving DecidableEq

/-- `DeviceInfo` from Dashboard.tsx. -/
structure DeviceInfo where
  jid : String
  state : String
  rtt : Int
  avg : Int
deriving DecidableEq

/-- `ContactInfo` from Dashboard.tsx. -/
structure ContactInfo where
  jid : String
  displayNumber : String
  contactName : String
  data : List TrackerData
  devices : List DeviceInfo
  deviceCount : Int
  presence : Option String
  profilePic : Option String
  platform : Platform
deriving DecidableEq

/-- The contacts map: JS `Map<string, ContactInfo>` as an insertion-ordered
association list with unique keys. -/
abbrev CMap : Type := List (String × ContactInfo)

/-- `Map.prototype.get`: value at the first matching key. -/
def mapGet : CMap → String → Option ContactInfo
  | [], _ => none
  | (k, v) :: t, j => if k = j then some v else mapGet t j

/-- `Map.prototype.has`. -/
def mapHas (m : CMap) (j : String) : Bool :=
  (mapGet m j).isSome

/-- `Map.prototype.set`: update in place when the key is present, append
when it is fresh (JS `Map` keeps the original insertion position). -/
def mapSet : CMap → String → ContactInfo → CMap
  | [], j, v => [(j, v)]
  | (k, w) :: t, j, v => if k = j then (j, v) :: t else (k, w) :: mapSet t j v

/-- `Map.prototype.delete`: removes the entry with the given key.  On the
unique-key states a JS `Map` can reach this is exactly a filter. -/
def mapDel (m : CMap) (j : String) : CMap :=
  m.filter (fun p => decide (p.1 ≠ j))

/-- The component state touched by the socket-event handlers of
`Dashboard` (contacts, error banner, probe method, and the two input
fields cleared by `onContactAdded`).  The remaining `useState` pieces
(privacy mode, platform selector, connections panel) are never written by
any handler. -/
structure DashState where
  contacts : CMap
  error : Option String
  probeMethod : ProbeMethod
  inputNumber : String
  newContact : String
deriving DecidableEq

/-- `tracker-update` event payload.  `jid` is `none` for any falsy value
(absent/`null`/`""`), which the handler drops uniformly; each optional
field is `none` when absent from the event. `presence` is
`string | null` when present, hence `Option (Option String)`. -/
structure TrackerUpdateEvent where
  jid : Option String
  presence : Option (Option String)
  deviceCount : Option Int
  devices : Option (List DeviceInfo)
  median : Option Int
  threshold : Option Int
deriving DecidableEq

/-- `contact-added` event payload (`platform` optional; the handler
defaults it to `'whatsapp'` via `data.platform || 'whatsapp'`). -/
structure ContactAddedEvent where
  jid : String
  number : String
  platform : Option Platform
deriving DecidableEq

/-- One element of the `tracked-contacts` bootstrap reply. -/
structure TrackedContact where
  id : String
  platform : Platform
deriving DecidableEq

/-- The string literal `'Online'` used by the chart-state selection. -/
def onlineLit : String := "Online"

/-- Substring occurrence on character lists (JS `String.prototype.includes`). -/
def listOccurs (pat : List Char) : List Char → Bool
  | [] => pat.isEmpty
  | c :: t => pat.isPrefixOf (c :: t) || listOccurs pat t

/-- JS `s.includes(pat)`. -/
def strOccurs (s pat : String) : Bool :=
  listOccurs pat.toList s.toList

/-- JS `a || b` on strings: `b` when `a` is falsy (empty), else `a`. -/
def jsStrOr (a b : String) : String :=
  if a = "" then b else a

/-- Fallback device for `devices[0]`; only reachable behind the
`devices.length > 0` guard, so never actually used. -/
def emptyDevice : DeviceInfo :=
  { jid := "", state := "", rtt := 0, avg := 0 }

/-- The chart-point state selection in `onTrackerUpdate`:
`devices.find(d => d.state.includes('Online'))?.state || devices[0].state`. -/
def chartState (ds : List DeviceInfo) : String :=
  match ds.find? (fun d => strOccurs d.state onlineLit) with
  | some d => jsStrOr d.state (ds.headD emptyDevice).state
  | none => (ds.headD emptyDevice).state

/-- The chart data point built in `onTrackerUpdate` when a median and a
non-empty devices list are present. -/
def newDataPoint (med : Int) (thr : Option Int) (ds : List DeviceInfo) (now : Nat) : TrackerData :=
  { rtt := (ds.headD emptyDevice).rtt
    avg := (ds.headD emptyDevice).avg
    median := med
    threshold := thr
    state := chartState ds
    timestamp := now }

/-- The three field-presence-guarded updates of `onTrackerUpdate`
(`presence`, `deviceCount`, `devices`). -/
def applyFields (e : TrackerUpdateEvent) (c : ContactInfo) : ContactInfo :=
  let c1 := match e.presence with
    | some p => { c with presence := p }
    | none => c
  let c2 := match e.deviceCount with
    | some n => { c1 with deviceCount := n }
    | none => c1
  match e.devices with
  | some ds => { c2 with devices := ds }
  | none => c2

/-- The chart-append step of `onTrackerUpdate`, guarded by
`data.median !== undefined && data.devices && data.devices.length > 0`. -/
def appendChart (e : TrackerUpdateEvent) (now : Nat) (c : ContactInfo) : ContactInfo :=
  match e.median, e.devices with
  | some med, some ds =>
      if 0 < ds.length then
        { c with data := c.data ++ [newDataPoint med e.threshold ds now] }
      else c
  | _, _ => c

/-- Handler for `tracker-update`.  A falsy jid returns early; an unknown
jid leaves the (copied) map with the same content. -/
def onTrackerUpdate (e : TrackerUpdateEvent) (now : Nat) (s : DashState) : DashState :=
  match e.jid with
  | none => s
  | some jid =>
    match mapGet s.contacts jid with
    | none => s
    | some contact =>
      { s with contacts := mapSet s.contacts jid (appendChart e now (applyFields e contact)) }

/-- Handler for `profile-pic {jid, url|null}`. -/
def onProfilePic (jid : String) (url : Option String) (s : DashState) : DashState :=
  match mapGet s.contacts jid with
  | none => s
  | some contact =>
    { s with contacts := mapSet s.contacts jid { contact with profilePic := url } }

/-- Handler for `contact-name {jid, name}`. -/
def onContactName (jid : String) (name : String) (s : DashState) : DashState :=
  match mapGet s.contacts jid with
  | none => s
  | some contact =>
    { s with contacts := mapSet s.contacts jid { contact with contactName := name } }

/-- The fresh entry installed by `onContactAdded`. -/
def freshContact (a : ContactAddedEvent) : ContactInfo :=
  { jid := a.jid
    displayNumber := a.number
    contactName := a.number
    data := []
    devices := []
    deviceCount := 0
    presence := none
    profilePic := none
    platform := a.platform.getD Platform.whatsapp }

/-- Handler for `contact-added`; also clears both input fields. -/
def onContactAdded (a : ContactAddedEvent) (s : DashState) : DashState :=
  { s with
    contacts := mapSet s.contacts a.jid (freshContact a)
    inputNumber := ""
    newContact := "" }

/-- Handler for `contact-removed`. -/
def onContactRemoved (jid : String) (s : DashState) : DashState :=
  { s with contacts := mapDel s.contacts jid }

/-- Handler for `error {jid?, message}`: sets the error banner only (the
3-second asynchronous clear is outside this synchronous step). -/
def onError (_jid : Option String) (message : String) (s : DashState) : DashState :=
  { s with error := some message }

/-- Handler for `probe-method`. -/
def onProbeMethod (method : ProbeMethod) (s : DashState) : DashState :=
  { s with probeMethod := method }

/-- Remove the first occurrence of `pat` from `s` (character lists);
JS `s.replace(pat, '')` for a plain-string pattern. -/
def removeFirstAux (pat : List Char) : List Char → List Char
  | [] => []
  | c :: t =>
      if pat.isPrefixOf (c :: t) then (c :: t).drop pat.length
      else c :: removeFirstAux pat t

/-- JS `s.replace(pat, '')`. -/
def removeFirst (s pat : String) : String :=
  String.mk (removeFirstAux pat.toList s.toList)

/-- JS `s.split('@')[0]`: the characters before the first `'@'` (the whole
string when there is none). -/
def beforeAt (s : String) : String :=
  String.mk (s.toList.takeWhile (fun c => !(c == '@')))

/-- Display number extraction in `onTrackedContacts`. -/
def displayNumberOf (id : String) (platform : Platform) : String :=
  match platform with
  | Platform.signal => removeFirst id "signal:"
  | Platform.whatsapp => beforeAt id

/-- The fresh entry installed by `onTrackedContacts` for an unknown id. -/
def bootEntry (id : String) (platform : Platform) : ContactInfo :=
  { jid := id
    displayNumber := displayNumberOf id platform
    contactName := displayNumberOf id platform
    data := []
    devices := []
    deviceCount := 0
    presence := none
    profilePic := none
    platform := platform }

/-- One `forEach` step of `onTrackedContacts`: install a fresh entry only
when the id is not already present. -/
def trackedStep (next : CMap) (tc : TrackedContact) : CMap :=
  if mapHas next tc.id then next
  else mapSet next tc.id (bootEntry tc.id tc.platform)

/-- Handler for the `tracked-contacts` bootstrap reply. -/
def onTrackedContacts (cs : List TrackedContact) (s : DashState) : DashState :=
  { s with contacts := cs.foldl trackedStep s.contacts }

/-- The default-field profile shared by every freshly created contact
entry (claim about entry creation). -/
def defaultEntryFields (c : ContactInfo) : Prop :=
  c.contactName = c.displayNumber ∧ c.data = [] ∧ c.devices = [] ∧
  c.deviceCount = 0 ∧ c.presence = none ∧ c.profilePic = none

/-!
## RTT Tracker statistics

The RTT Tracker / Statistics Engine is part of the presence-inference
core, whose source is not among the repository files available here; only
its dashboard consumer is.  Its statistics are therefore modelled from
the specification.
-/

/-- Insert into an ascending list (ascending insertion sort step). -/
def insertAsc (x : ℚ) : List ℚ → List ℚ
  | [] => [x]
  | y :: t => if x ≤ y then x :: y :: t else y :: insertAsc x t

/-- Ascending sort of a sample window. -/
def sortAsc : List ℚ → List ℚ
  | [] => []
  | x :: t => insertAsc x (sortAsc t)

/-- Modelled from the spec: the RTT Tracker's median over a device's
sample window.  The tracker source is not among the repository files;
per the spec, the median over an even-length window is the mean of the
two middle values after ascending sort, and an empty window yields
"no data" (here `none`) rather than a numeric default. -/
def windowMedian (w : List ℚ) : Option ℚ :=
  match sortAsc w with
  | [] => none
  | s@(_ :: _) =>
      let n := s.length
      if n % 2 = 1 then some (s.getD (n / 2) 0)
      else some ((s.getD (n / 2 - 1) 0 + s.getD (n / 2) 0) / 2)

/-- Modelled from the spec: the average over a device's sample window,
"no data" when the window is empty. -/
def windowAvg (w : List ℚ) : Option ℚ :=
  match w with
  | [] => none
  | _ :: _ => some (w.sum / w.length)

/-- Modelled from the spec: `currentStats()` of the RTT Tracker, the
`{avg, median}` pair over the current window. -/
def currentStats (w : List ℚ) : Option ℚ × Option ℚ :=
  (windowAvg w, windowMedian w)

/-!
## init-signal bootstrap script

`src/scripts/init-signal.ts` shells out to Docker via `execSync` (which
throws on a non-zero exit) inside nested try/catch blocks.  We model the
outside world as a record of which Docker commands would succeed, and the
script as the list of Docker commands it attempts together with the
process exit status.  A fall-through to the end of the script is a normal
exit (status 0).  Note that a failing `docker start` is caught by the
same `catch` as a failing `docker inspect`, so it too falls through to
the create path. -/

/-- The Docker commands the script can attempt. -/
inductive DockerCmd where
  | info
  | inspect
  | start
  | create
deriving DecidableEq

/-- Which Docker commands would succeed in the current environment. -/
structure DockerEnv where
  infoOk : Bool
  inspectOk : Bool
  startOk : Bool
  createOk : Bool
deriving DecidableEq

/-- Outcome of running the script: commands attempted in order, and the
process exit status. -/
structure InitResult where
  attempted : List DockerCmd
  exitCode : Nat
deriving DecidableEq

/-- Shallow embedding of `init-signal.ts`'s control flow. -/
def initSignal (env : DockerEnv) : InitResult :=
  if !env.infoOk then
    { attempted := [DockerCmd.info], exitCode := 0 }
  else if env.inspectOk then
    if env.startOk then
      { attempted := [DockerCmd.info, DockerCmd.inspect, DockerCmd.start], exitCode := 0 }
    else if env.createOk then
      { attempted := [DockerCmd.info, DockerCmd.inspect, DockerCmd.start, DockerCmd.create],
        exitCode := 0 }
    else
      { attempted := [DockerCmd.info, DockerCmd.inspect, DockerCmd.start, DockerCmd.create],
        exitCode := 1 }
  else if env.createOk then
    { attempted := [DockerCmd.info, DockerCmd.inspect, DockerCmd.create], exitCode := 0 }
  else
    { attempted := [DockerCmd.info, DockerCmd.inspect, DockerCmd.create], exitCode := 1 }

/-!
## Concrete sample values used to instantiate the theorems
-/

/-- A sample tracked contact. -/
def sampleContact : ContactInfo :=
  { jid := "z"
    displayNumber := "111"
    contactName := "Zed"
    data := []
    devices := []
    deviceCount := 1
    presence := some "subscribed"
    profilePic := none
    platform := Platform.whatsapp }

/-- A sample dashboard state tracking `sampleContact`. -/
def sampleState : DashState :=
  { contacts := [("z", sampleContact)]
    error := none
    probeMethod := ProbeMethod.delete
    inputNumber := ""
    newContact := "" }

/-- A sample offline device. -/
def offlineDev : DeviceInfo :=
  { jid := "d1", state := "Offline", rtt := 30, avg := 28 }

/-- A sample online device. -/
def onlineDev : DeviceInfo :=
  { jid := "d2", state := "Online", rtt := 10, avg := 12 }

/-- A sample tracker-update for `sampleContact` carrying a median and a
non-empty devices list (one offline device listed before one online). -/
def sampleUpdate : TrackerUpdateEvent :=
  { jid := some "z"
    presence := some (some "available")
    deviceCount := some 2
    devices := some [offlineDev, onlineDev]
    median := some 20
    threshold := some 40 }

/-!
## Basic lemmas about the map model
-/

theorem mapGet_mapSet_self (m : CMap) (j : String) (v : ContactInfo) :
    mapGet (mapSet m j v) j = some v := by
  induction m with
  | nil => simp [mapSet, mapGet]
  | cons p t ih =>
      obtain ⟨k, w⟩ := p
      by_cases hk : k = j
      · simp [mapSet, hk, mapGet]
      · simp [mapSet, hk, mapGet, ih]

theorem mapGet_mapSet_ne (m : CMap) (j k : String) (v : ContactInfo) (hk : k ≠ j) :
    mapGet (mapSet m j v) k = mapGet m k := by
  have hjk : ¬ j = k := fun h => hk h.symm
  induction m with
  | nil => simp [mapSet, mapGet, hjk]
  | cons p t ih =>
      obtain ⟨k0, w⟩ := p
      by_cases h0 : k0 = j
      · subst h0
        simp [mapSet, mapGet, hjk]
      · by_cases h1 : k0 = k
        · simp [mapSet, h0, mapGet, h1, hk]
        · simp [mapSet, h0, mapGet, h1, ih]

theorem mapSet_mapSet_self (m : CMap) (j : String) (v w : ContactInfo) :
    mapSet (mapSet m j v) j w = mapSet m j w := by
  induction m with
  | nil => simp [mapSet]
  | cons p t ih =>
      obtain ⟨k0, u⟩ := p
      by_cases h0 : k0 = j
      · simp [mapSet, h0]
      · simp [mapSet, h0, ih]

theorem mapGet_none_mapSet_append (m : CMap) (j : String) (v : ContactInfo)
    (h : mapGet m j = none) : mapSet m j v = m ++ [(j, v)] := by
  induction m with
  | nil => simp [mapSet]
  | cons p t ih =>
      obtain ⟨k0, u⟩ := p
      by_cases h0 : k0 = j
      · simp [mapGet, h0] at h
      · simp [mapGet, h0] at h
        simp [mapSet, h0, ih h]

theorem mapDel_append_one (m : CMap) (j : String) (v : ContactInfo)
    (h : mapGet m j = none) : mapDel (m ++ [(j, v)]) j = m := by
  unfold mapDel
  rw [List.filter_append]
  have hall : ∀ p ∈ m, (fun q : String × ContactInfo => decide (q.1 ≠ j)) p = true := by
    intro p hp
    simp only [decide_eq_true_eq]
    intro hj
    rw [← hj] at h
    clear hj
    induction m with
    | nil => simp at hp
    | cons q t ih =>
        obtain ⟨k0, u⟩ := q
        rcases List.mem_cons.mp hp with h1 | h1
        · subst h1
          simp [mapGet] at h
        · by_cases h0 : k0 = p.1
          · simp [mapGet, h0] at h
          · simp [mapGet, h0] at h
            exact ih h h1
  rw [List.filter_eq_self.mpr hall]
  simp

/-!
## Field lemmas for the tracker-update handler
-/

theorem applyFields_presence (e : TrackerUpdateEvent) (c : ContactInfo) :
    (applyFields e c).presence = e.presence.getD c.presence := by
  rcases hp : e.presence with _ | p <;> rcases hd : e.deviceCount with _ | n <;>
    rcases hv : e.devices with _ | ds <;> simp [applyFields, hp, hd, hv]

theorem applyFields_deviceCount (e : TrackerUpdateEvent) (c : ContactInfo) :
    (applyFields e c).deviceCount = e.deviceCount.getD c.deviceCount := by
  rcases hp : e.presence with _ | p <;> rcases hd : e.deviceCount with _ | n <;>
    rcases hv : e.devices with _ | ds <;> simp [applyFields, hp, hd, hv]

theorem applyFields_devices (e : TrackerUpdateEvent) (c : ContactInfo) :
    (applyFields e c).devices = e.devices.getD c.devices := by
  rcases hp : e.presence with _ | p <;> rcases hd : e.deviceCount with _ | n <;>
    rcases hv : e.devices with _ | ds <;> simp [applyFields, hp, hd, hv]

theorem applyFields_rest (e : TrackerUpdateEvent) (c : ContactInfo) :
    (applyFields e c).jid = c.jid ∧ (applyFields e c).displayNumber = c.displayNumber ∧
    (applyFields e c).contactName = c.contactName ∧ (applyFields e c).data = c.data ∧
    (applyFields e c).profilePic = c.profilePic ∧ (applyFields e c).platform = c.platform := by
  rcases hp : e.presence with _ | p <;> rcases hd : e.deviceCount with _ | n <;>
    rcases hv : e.devices with _ | ds <;> simp [applyFields, hp, hd, hv]

theorem applyFields_applyFields (e : TrackerUpdateEvent) (c : ContactInfo) :
    applyFields e (applyFields e c) = applyFields e c := by
  rcases hp : e.presence with _ | p <;> rcases hd : e.deviceCount with _ | n <;>
    rcases hv : e.devices with _ | ds <;> simp [applyFields, hp, hd, hv]

theorem appendChart_rest (e : TrackerUpdateEvent) (now : Nat) (c : ContactInfo) :
    (appendChart e now c).jid = c.jid ∧
    (appendChart e now c).displayNumber = c.displayNumber ∧
    (appendChart e now c).contactName = c.contactName ∧
    (appendChart e now c).devices = c.devices ∧
    (appendChart e now c).deviceCount = c.deviceCount ∧
    (appendChart e now c).presence = c.presence ∧
    (appendChart e now c).profilePic = c.profilePic ∧
    (appendChart e now c).platform = c.platform := by
  rcases hm : e.median with _ | med <;> rcases hv : e.devices with _ | ds <;>
    simp [appendChart, hm, hv] <;> split <;> simp

theorem appendChart_of_guard (e : TrackerUpdateEvent) (now : Nat) (c : ContactInfo)
    (med : Int) (ds : List DeviceInfo) (hm : e.median = some med)
    (hd : e.devices = some ds) (hne : ds ≠ []) :
    appendChart e now c = { c with data := c.data ++ [newDataPoint med e.threshold ds now] } := by
  have hlen : 0 < ds.length := List.length_pos.mpr hne
  simp [appendChart, hm, hd, hlen]

theorem appendChart_no_guard (e : TrackerUpdateEvent) (now : Nat) (c : ContactInfo)
    (h : e.median = none ∨ e.devices = none ∨ e.devices = some []) :
    appendChart e now c = c := by
  rcases h with h | h | h
  · simp [appendChart, h]
  · rcases hm : e.median with _ | med <;> simp [appendChart, hm, h]
  · rcases hm : e.median with _ | med <;> simp [appendChart, hm, h]

theorem strOccurs_empty_left : strOccurs "" onlineLit = false := by decide

theorem chartState_found (ds : List DeviceInfo) (d : DeviceInfo)
    (h : ds.find? (fun x => strOccurs x.state onlineLit) = some d) :
    chartState ds = d.state := by
  have hp0 := List.find?_some h
  replace hp : strOccurs d.state onlineLit = true := hp0
  have hne : d.state ≠ "" := by
    intro he
    rw [he, strOccurs_empty_left] at hp
    exact Bool.false_ne_true hp
  simp [chartState, h, jsStrOr, hne]

theorem chartState_not_found (ds : List DeviceInfo)
    (h : ds.find? (fun x => strOccurs x.state onlineLit) = none) :
    chartState ds = (ds.headD emptyDevice).state := by
  simp [chartState, h]

/-!
## Lemmas for the tracked-contacts fold
-/

theorem trackedFold_preserves (l : List TrackedContact) (m : CMap) (k : String)
    (c : ContactInfo) (h : mapGet m k = some c) :
    mapGet (l.foldl trackedStep m) k = some c := by
  induction l generalizing m with
  | nil => simpa using h
  | cons tc t ih =>
      rw [List.foldl_cons]
      apply ih
      unfold trackedStep
      by_cases hh : mapHas m tc.id = true
      · simpa [hh] using h
      · have hk : k ≠ tc.id := by
          intro he
          rw [he] at h
          simp [mapHas, h] at hh
        rw [if_neg hh, mapGet_mapSet_ne _ _ _ _ hk]
        exact h

theorem bootEntry_defaults (id : String) (pl : Platform) :
    defaultEntryFields (bootEntry id pl) := by
  cases pl <;> exact ⟨rfl, rfl, rfl, rfl, rfl, rfl⟩

theorem trackedFold_shape (l : List TrackedContact) (m : CMap) (k : String) :
    mapGet (l.foldl trackedStep m) k = mapGet m k ∨
      ∃ en, mapGet (l.foldl trackedStep m) k = some en ∧ defaultEntryFields en := by
  induction l generalizing m with
  | nil => exact Or.inl rfl
  | cons tc t ih =>
      rw [List.foldl_cons]
      rcases ih (trackedStep m tc) with h | h
      · rw [h]
        unfold trackedStep
        by_cases hh : mapHas m tc.id = true
        · simp [hh]
        · rw [if_neg hh]
          by_cases hk : k = tc.id
          · subst hk
            exact Or.inr ⟨bootEntry tc.id tc.platform, mapGet_mapSet_self _ _ _,
              bootEntry_defaults _ _⟩
          · rw [mapGet_mapSet_ne _ _ _ _ hk]
            exact Or.inl rfl
      · exact Or.inr h

/-!
## Claim theorems
-/

/-- Claim C1: for every tracker-update event applied to a contact already
in the contacts map, each of `presence`, `deviceCount` and `devices` is
replaced exactly when the corresponding field is present in the event
(absence means unchanged, never clear-to-empty), while the contact's
`jid`, `displayNumber`, `contactName`, `profilePic` and `platform`, as
well as every other contact in the map, are left unchanged. -/
theorem tracker_update_field_presence
    (e : TrackerUpdateEvent) (now : Nat) (s : DashState) (j : String) (c : ContactInfo)
    (hj : e.jid = some j) (hc : mapGet s.contacts j = some c) :
    ∃ c', mapGet (onTrackerUpdate e now s).contacts j = some c' ∧
      c'.presence = e.presence.getD c.presence ∧
      c'.deviceCount = e.deviceCount.getD c.deviceCount ∧
      c'.devices = e.devices.getD c.devices ∧
      c'.jid = c.jid ∧ c'.displayNumber = c.displayNumber ∧
      c'.contactName = c.contactName ∧ c'.profilePic = c.profilePic ∧
      c'.platform = c.platform ∧
      ∀ k, k ≠ j → mapGet (onTrackerUpdate e now s).contacts k = mapGet s.contacts k := by
  have hcon : (onTrackerUpdate e now s).contacts =
      mapSet s.contacts j (appendChart e now (applyFields e c)) := by
    simp [onTrackerUpdate, hj, hc]
  obtain ⟨a1, a2, a3, a4, a5, a6, a7, a8⟩ := appendChart_rest e now (applyFields e c)
  obtain ⟨b1, b2, b3, b4, b5, b6⟩ := applyFields_rest e c
  refine ⟨appendChart e now (applyFields e c), ?_, ?_, ?_, ?_, ?_, ?_, ?_, ?_, ?_, ?_⟩
  · rw [hcon]; exact mapGet_mapSet_self _ _ _
  · rw [a6, applyFields_presence]
  · rw [a5, applyFields_deviceCount]
  · rw [a4, applyFields_devices]
  · rw [a1, b1]
  · rw [a2, b2]
  · rw [a3, b3]
  · rw [a7, b5]
  · rw [a8, b6]
  · intro k hk
    rw [hcon, mapGet_mapSet_ne _ _ _ _ hk]

/-- Witness for C1: `sampleUpdate` applied to `sampleState` at the
tracked jid `"z"`. -/
theorem tracker_update_field_presence_witness :
    sampleUpdate.jid = some "z" ∧ mapGet sampleState.contacts "z" = some sampleContact ∧
    ∃ c', mapGet (onTrackerUpdate sampleUpdate 5 sampleState).contacts "z" = some c' ∧
      c'.presence = sampleUpdate.presence.getD sampleContact.presence ∧
      c'.deviceCount = sampleUpdate.deviceCount.getD sampleContact.deviceCount ∧
      c'.devices = sampleUpdate.devices.getD sampleContact.devices ∧
      c'.jid = sampleContact.jid ∧ c'.displayNumber = sampleContact.displayNumber ∧
      c'.contactName = sampleContact.contactName ∧ c'.profilePic = sampleContact.profilePic ∧
      c'.platform = sampleContact.platform ∧
      ∀ k, k ≠ "z" →
        mapGet (onTrackerUpdate sampleUpdate 5 sampleState).contacts k =
          mapGet sampleState.contacts k :=
  ⟨rfl, by decide,
    tracker_update_field_presence sampleUpdate 5 sampleState "z" sampleContact rfl (by decide)⟩

/-- Claim C9: a tracker-update whose jid is missing (falsy) or not a key
of the contacts map leaves the dashboard state, in particular the
contacts map, completely unchanged. -/
theorem unknown_jid_tracker_noop (e : TrackerUpdateEvent) (now : Nat) (s : DashState)
    (h : ∀ j, e.jid = some j → mapGet s.contacts j = none) :
    onTrackerUpdate e now s = s := by
  rcases hj : e.jid with _ | j
  · simp [onTrackerUpdate, hj]
  · simp [onTrackerUpdate, hj, h j hj]

/-- Witness for C9: an update for the untracked jid `"q"` leaves
`sampleState` unchanged. -/
theorem unknown_jid_tracker_noop_witness :
    mapGet sampleState.contacts "q" = none ∧
    onTrackerUpdate { sampleUpdate with jid := some "q" } 0 sampleState = sampleState :=
  ⟨by decide,
    unknown_jid_tracker_noop { sampleUpdate with jid := some "q" } 0 sampleState
      (fun j hj => by cases hj; decide)⟩

/-- Claim C7: an `error {jid?, message}` event never changes the contacts
map, whether or not it carries the jid of a tracked contact. -/
theorem error_event_preserves_contacts (jid : Option String) (message : String) (s : DashState) :
    (onError jid message s).contacts = s.contacts := rfl

/-- Claim C6: a `contact-name` (resp. `profile-pic`) event is silently
dropped when its jid is not in the contacts map, and otherwise sets
exactly the `contactName` (resp. `profilePic`) field of that contact,
leaving every other field and every other contact unchanged. -/
theorem name_pic_update_pointwise (jid name : String) (url : Option String)
    (s : DashState) (k : String) :
    mapGet (onContactName jid name s).contacts k =
      (if k = jid then (mapGet s.contacts jid).map (fun c => { c with contactName := name })
       else mapGet s.contacts k) ∧
    mapGet (onProfilePic jid url s).contacts k =
      (if k = jid then (mapGet s.contacts jid).map (fun c => { c with profilePic := url })
       else mapGet s.contacts k) := by
  constructor
  · rcases hc : mapGet s.contacts jid with _ | c
    · by_cases hk : k = jid
      · subst hk; simp [onContactName, hc]
      · simp [onContactName, hc, hk]
    · by_cases hk : k = jid
      · subst hk; simp [onContactName, hc, mapGet_mapSet_self]
      · simp [onContactName, hc, hk, mapGet_mapSet_ne _ _ _ _ hk]
  · rcases hc : mapGet s.contacts jid with _ | c
    · by_cases hk : k = jid
      · subst hk; simp [onProfilePic, hc]
      · simp [onProfilePic, hc, hk]
    · by_cases hk : k = jid
      · subst hk; simp [onProfilePic, hc, mapGet_mapSet_self]
      · simp [onProfilePic, hc, hk, mapGet_mapSet_ne _ _ _ _ hk]

/-- Claim C3: for a jid not currently tracked, `contact-added` followed
by `contact-removed` leaves the contacts map equal to its value before
the add. -/
theorem add_remove_roundtrip (a : ContactAddedEvent) (s : DashState)
    (h : mapGet s.contacts a.jid = none) :
    (onContactRemoved a.jid (onContactAdded a s)).contacts = s.contacts := by
  show mapDel (mapSet s.contacts a.jid (freshContact a)) a.jid = s.contacts
  rw [mapGet_none_mapSet_append _ _ _ h, mapDel_append_one _ _ _ h]

/-- Witness for C3: adding and removing the fresh jid `"y"` restores
`sampleState`'s contacts. -/
theorem add_remove_roundtrip_witness :
    mapGet sampleState.contacts "y" = none ∧
    (onContactRemoved "y"
        (onContactAdded { jid := "y", number := "222", platform := some Platform.signal }
          sampleState)).contacts = sampleState.contacts :=
  ⟨by decide,
    add_remove_roundtrip { jid := "y", number := "222", platform := some Platform.signal }
      sampleState (by decide)⟩

/-- Claim C5: the chart data point recorded for a tracker-update carrying
a median and a non-empty devices list takes its state from the first
device whose state contains `'Online'` when one exists, and from the
first listed device otherwise. -/
theorem chart_state_online_first (e : TrackerUpdateEvent) (now : Nat) (s : DashState)
    (j : String) (c : ContactInfo) (med : Int) (ds : List DeviceInfo)
    (hj : e.jid = some j) (hc : mapGet s.contacts j = some c)
    (hm : e.median = some med) (hd : e.devices = some ds) (hne : ds ≠ []) :
    ∃ c' pt, mapGet (onTrackerUpdate e now s).contacts j = some c' ∧
      c'.data = c.data ++ [pt] ∧ pt.median = med ∧
      ((∃ d, ds.find? (fun x => strOccurs x.state onlineLit) = some d ∧ pt.state = d.state) ∨
        (ds.find? (fun x => strOccurs x.state onlineLit) = none ∧
          pt.state = (ds.headD emptyDevice).state)) := by
  have hcon : (onTrackerUpdate e now s).contacts =
      mapSet s.contacts j (appendChart e now (applyFields e c)) := by
    simp [onTrackerUpdate, hj, hc]
  refine ⟨appendChart e now (applyFields e c), newDataPoint med e.threshold ds now,
    ?_, ?_, rfl, ?_⟩
  · rw [hcon]; exact mapGet_mapSet_self _ _ _
  · rw [appendChart_of_guard e now _ med ds hm hd hne]
    have hdata := (applyFields_rest e c).2.2.2.1
    simp [hdata]
  · rcases hf : ds.find? (fun x => strOccurs x.state onlineLit) with _ | d
    · exact Or.inr ⟨hf, by simp [newDataPoint, chartState_not_found ds hf]⟩
    · exact Or.inl ⟨d, hf, by simp [newDataPoint, chartState_found ds d hf]⟩

/-- Witness for C5: with devices in states Offline then Online, the
recorded chart state is that of the online device — `"Online"`. -/
theorem chart_state_online_first_witness :
    mapGet sampleState.contacts "z" = some sampleContact ∧
    chartState [offlineDev, onlineDev] = "Online" ∧
    ∃ c' pt, mapGet (onTrackerUpdate sampleUpdate 5 sampleState).contacts "z" = some c' ∧
      c'.data = sampleContact.data ++ [pt] ∧ pt.median = 20 ∧
      ((∃ d, [offlineDev, onlineDev].find? (fun x => strOccurs x.state onlineLit) = some d ∧
          pt.state = d.state) ∨
        ([offlineDev, onlineDev].find? (fun x => strOccurs x.state onlineLit) = none ∧
          pt.state = ([offlineDev, onlineDev].headD emptyDevice).state)) :=
  ⟨by decide, by decide,
    chart_state_online_first sampleUpdate 5 sampleState "z" sampleContact 20
      [offlineDev, onlineDev] rfl (by decide) rfl rfl (by decide)⟩

/-- Claim C8: every entry created by `contact-added` or by the
`tracked-contacts` bootstrap starts with `contactName` equal to its
display number, empty chart and devices lists, `deviceCount` 0 and null
presence and profile picture; and the bootstrap never overwrites an
entry already present. -/
theorem contact_entries_default (a : ContactAddedEvent) (cs : List TrackedContact)
    (s : DashState) (k : String) (c : ContactInfo) (h : mapGet s.contacts k = some c) :
    mapGet (onContactAdded a s).contacts a.jid = some (freshContact a) ∧
    defaultEntryFields (freshContact a) ∧
    mapGet (onTrackedContacts cs s).contacts k = some c ∧
    ∀ q, mapGet (onTrackedContacts cs s).contacts q = mapGet s.contacts q ∨
      ∃ en, mapGet (onTrackedContacts cs s).contacts q = some en ∧ defaultEntryFields en := by
  refine ⟨?_, ⟨rfl, rfl, rfl, rfl, rfl, rfl⟩, ?_, ?_⟩
  · show mapGet (mapSet s.contacts a.jid (freshContact a)) a.jid = _
    exact mapGet_mapSet_self _ _ _
  · exact trackedFold_preserves cs s.contacts k c h
  · intro q
    exact trackedFold_shape cs s.contacts q

/-- Witness for C8: a bootstrap reply containing one signal id leaves the
pre-existing entry for `"z"` intact, and the added entry for `"j1"` is the
default fresh entry. -/
theorem contact_entries_default_witness :
    mapGet sampleState.contacts "z" = some sampleContact ∧
    mapGet (onContactAdded { jid := "j1", number := "333", platform := none }
        sampleState).contacts "j1" =
      some (freshContact { jid := "j1", number := "333", platform := none }) ∧
    mapGet (onTrackedContacts [{ id := "signal:77", platform := Platform.signal }]
        sampleState).contacts "z" = some sampleContact :=
  ⟨by decide,
    (contact_entries_default { jid := "j1", number := "333", platform := none }
      [{ id := "signal:77", platform := Platform.signal }] sampleState "z" sampleContact
      (by decide)).1,
    (contact_entries_default { jid := "j1", number := "333", platform := none }
      [{ id := "signal:77", platform := Platform.signal }] sampleState "z" sampleContact
      (by decide)).2.2.1⟩

/-- Claim C4: the RTT Tracker's `currentStats()` median over a device's
sample window — `[10, 20, 30, 40]` yields `25` (mean of the two middle
values after ascending sort), `[5]` yields `5`, and an empty window
yields no data rather than the numeric default `0`. -/
theorem median_examples :
    (currentStats [10, 20, 30, 40]).2 = some 25 ∧
    (currentStats [5]).2 = some 5 ∧
    (currentStats []).2 = none ∧
    windowMedian [10, 20, 30, 40] = some 25 ∧
    windowMedian [5] = some 5 ∧
    windowMedian [] = none := by
  refine ⟨?_, ?_, rfl, ?_, ?_, rfl⟩ <;>
    norm_num [currentStats, windowMedian, sortAsc, insertAsc]

/-- Claim C10: when the `docker info` check fails, the init-signal
bootstrap exits with status 0 without attempting to inspect, start or
create the container; exit status 1 only arises when Docker is available
and the subsequent start/create commands fail (in the script's control
flow a failed `docker start` falls through to the create path, so status
1 always coincides with a failed `docker run` create attempt). -/
theorem init_signal_exit_policy (env : DockerEnv) :
    (env.infoOk = false →
      initSignal env = { attempted := [DockerCmd.info], exitCode := 0 } ∧
      DockerCmd.inspect ∉ (initSignal env).attempted ∧
      DockerCmd.start ∉ (initSignal env).attempted ∧
      DockerCmd.create ∉ (initSignal env).attempted) ∧
    ((initSignal env).exitCode = 1 →
      env.infoOk = true ∧ env.createOk = false ∧
      DockerCmd.create ∈ (initSignal env).attempted ∧
      (env.startOk = false ∨ env.inspectOk = false)) := by
  obtain ⟨i, n, st, cr⟩ := env
  cases i <;> cases n <;> cases st <;> cases cr <;> decide

/-- Witness for C10: Docker unavailable exits 0 after only `docker info`;
an environment where start and create fail exits 1 with the create
attempted. -/
theorem init_signal_exit_policy_witness :
    (DockerEnv.mk false true true true).infoOk = false ∧
    initSignal (DockerEnv.mk false true true true) =
      { attempted := [DockerCmd.info], exitCode := 0 } ∧
    (initSignal (DockerEnv.mk true true false false)).exitCode = 1 ∧
    DockerCmd.create ∈ (initSignal (DockerEnv.mk true true false false)).attempted ∧
    (DockerEnv.mk true true false false).createOk = false :=
  ⟨rfl,
    ((init_signal_exit_policy (DockerEnv.mk false true true true)).1 rfl).1,
    by decide,
    ((init_signal_exit_policy (DockerEnv.mk true true false false)).2 (by decide)).2.2.1,
    ((init_signal_exit_policy (DockerEnv.mk true true false false)).2 (by decide)).2.1⟩

/-- Claim C2 counterexample: a tracker-update carrying a median and a
non-empty devices list is not idempotent — the second application appends
a second chart data point. -/
theorem tracker_update_not_idempotent :
    onTrackerUpdate sampleUpdate 0 (onTrackerUpdate sampleUpdate 0 sampleState) ≠
      onTrackerUpdate sampleUpdate 0 sampleState := by decide

/-- Claim C2 (amended): applying the same event twice in succession
yields the same state as applying it once for contact-added,
contact-removed, contact-name, profile-pic, probe-method and error
events; a tracker-update is idempotent exactly in the cases where it
records no chart data point, i.e. when its median is absent or its
devices list is absent or empty (an update carrying a median and a
non-empty devices list appends a data point on every application). -/
theorem events_idempotent_amended
    (jp : String) (url : Option String) (jn nm : String) (a : ContactAddedEvent)
    (jr : String) (je : Option String) (msg : String) (pm : ProbeMethod)
    (e : TrackerUpdateEvent) (now : Nat) (s : DashState)
    (h : e.median = none ∨ e.devices = none ∨ e.devices = some []) :
    onProfilePic jp url (onProfilePic jp url s) = onProfilePic jp url s ∧
    onContactName jn nm (onContactName jn nm s) = onContactName jn nm s ∧
    onContactAdded a (onContactAdded a s) = onContactAdded a s ∧
    onContactRemoved jr (onContactRemoved jr s) = onContactRemoved jr s ∧
    onError je msg (onError je msg s) = onError je msg s ∧
    onProbeMethod pm (onProbeMethod pm s) = onProbeMethod pm s ∧
    onTrackerUpdate e now (onTrackerUpdate e now s) = onTrackerUpdate e now s := by
  have hac : ∀ c, appendChart e now c = c := fun c => appendChart_no_guard e now c h
  refine ⟨?_, ?_, ?_, ?_, rfl, rfl, ?_⟩
  · rcases hc : mapGet s.contacts jp with _ | c
    · have h1 : onProfilePic jp url s = s := by simp [onProfilePic, hc]
      rw [h1, h1]
    · simp [onProfilePic, hc, mapGet_mapSet_self, mapSet_mapSet_self]
  · rcases hc : mapGet s.contacts jn with _ | c
    · have h1 : onContactName jn nm s = s := by simp [onContactName, hc]
      rw [h1, h1]
    · simp [onContactName, hc, mapGet_mapSet_self, mapSet_mapSet_self]
  · simp [onContactAdded, mapSet_mapSet_self]
  · simp [onContactRemoved, mapDel, List.filter_filter]
  · rcases hj : e.jid with _ | j
    · simp [onTrackerUpdate, hj]
    · rcases hc : mapGet s.contacts j with _ | c
      · have h1 : onTrackerUpdate e now s = s := by simp [onTrackerUpdate, hj, hc]
        rw [h1, h1]
      · have h1 : onTrackerUpdate e now s =
            { s with contacts := mapSet s.contacts j (applyFields e c) } := by
          simp [onTrackerUpdate, hj, hc, hac]
        rw [h1]
        simp [onTrackerUpdate, hj, mapGet_mapSet_self, hac, applyFields_applyFields,
          mapSet_mapSet_self]

/-- Witness for the amended C2: concrete events applied twice to
`sampleState`, with a tracker-update whose devices field is absent. -/
theorem events_idempotent_amended_witness :
    ({ sampleUpdate with devices := none } : TrackerUpdateEvent).devices = none ∧
    onProfilePic "z" (some "pic") (onProfilePic "z" (some "pic") sampleState) =
      onProfilePic "z" (some "pic") sampleState ∧
    onTrackerUpdate { sampleUpdate with devices := none } 0
        (onTrackerUpdate { sampleUpdate with devices := none } 0 sampleState) =
      onTrackerUpdate { sampleUpdate with devices := none } 0 sampleState :=
  ⟨rfl,
    (events_idempotent_amended "z" (some "pic") "z" "Name"
      { jid := "y", number := "222", platform := none } "z" none "m" ProbeMethod.reaction
      { sampleUpdate with devices := none } 0 sampleState (Or.inr (Or.inl rfl))).1,
    (events_idempotent_amended "z" (some "pic") "z" "Name"
      { jid := "y", number := "222", platform := none } "z" none "m" ProbeMethod.reaction
      { sampleUpdate with devices := none } 0 sampleState (Or.inr (Or.inl rfl))).2.2.2.2.2.2⟩
